import Mathlib

/-!
Shallow embedding of `src/meridiano/static/js/index.js`.

The file is client-side DOM code.  We embed the DOM state the handlers
read and write:

* every element of class `collections-menu` becomes a `Menu` record
  (its `id`, its inline `style.display`, and the `innerHTML` and
  `dataset.loaded` flag of its `.collections-menu-content` child);
* every element of class `collection-action-button` becomes an
  `ActionButtonContainer` (its `innerHTML`, and the text of the first
  `span` of its closest `.collection-entry` ancestor, when it has one);
* the date-filter region becomes a `DateFilterState` (the `display` of
  `#date-filter-content` and the text of the toggle icon).

Network I/O: a `fetch` outcome is an explicit input `FetchOutcome` that
collapses the three paths the code distinguishes — a response with
`!response.ok` (line 42 / 101 throws), any other thrown error (network
failure, JSON parse), and a parsed JSON body, of which the code reads
only `status`, `collections` and `message`.

HTML the code builds by template literals is built here by the same
string concatenation, character for character.
-/

/-- A JSON collection entry as consumed by the renderer:
`{id, name, contains}` (lines 49-54). `id` is kept as the string it
interpolates to. -/
structure Collection where
  id : String
  name : String
  contains : Bool
deriving DecidableEq, Repr

/-- Outcome of one `fetch` as the `try` block observes it:
`httpError` for `!response.ok`, `thrown` for any other raised error
(network failure, JSON parse), `body` for a parsed JSON body, of which
the handlers read `status`, `collections` and `message`. -/
inductive FetchOutcome where
  | httpError
  | thrown
  | body (status : String) (collections : Option (List Collection)) (message : Option String)
deriving DecidableEq, Repr

/-- One element of class `collections-menu`: its element id, its
`style.display`, and its `.collections-menu-content` child's
`innerHTML` and `dataset.loaded` flag (absent ↦ `false`,
`'true'` ↦ `true`; the code only ever writes `'true'`, line 61). -/
structure Menu where
  id : String
  display : String
  content : String
  loaded : Bool
deriving DecidableEq, Repr

/-- The page's list of `.collections-menu` elements, in document order. -/
abbrev Menus := List Menu

/-- The element ids of the menus, in document order. -/
def idsOf (menus : Menus) : List String :=
  menus.map Menu.id

/- ------------------------------------------------------------------ -/
/- HTML fragments built by the code (template literals, lines 50-58,
   67, 110-112), reproduced by string concatenation.                  -/
/- ------------------------------------------------------------------ -/

/-- The remove-variant button markup (lines 51 and 111). -/
def removeButtonHtml (collectionId articleId name : String) : String :=
  "<button class=\"btn btn-clear btn-remove-from-collection\" data-collection-id=\"" ++
    collectionId ++ "\" data-article-id=\"" ++ articleId ++ "\" title=\"Remove from " ++
    name ++ "\"><i class=\"fas fa-minus\"></i></button>"

/-- The add-variant button markup (lines 52 and 112). -/
def addButtonHtml (collectionId articleId name : String) : String :=
  "<button class=\"btn btn-filter btn-add-to-collection\" data-collection-id=\"" ++
    collectionId ++ "\" data-article-id=\"" ++ articleId ++ "\" title=\"Add to " ++
    name ++ "\"><i class=\"fas fa-plus\"></i></button>"

/-- The `buttonHtml` of the render loop (lines 50-52). -/
def collectionButtonHtml (articleId : String) (c : Collection) : String :=
  if c.contains then removeButtonHtml c.id articleId c.name
  else addButtonHtml c.id articleId c.name

/-- One `collection-entry` row of the render loop (line 53). -/
def collectionEntryHtml (articleId : String) (c : Collection) : String :=
  "<div class=\"collection-entry\" data-collection-id=\"" ++ c.id ++ "\"><span>" ++
    c.name ++ "</span><span class=\"collection-action-button\">" ++
    collectionButtonHtml articleId c ++ "</span></div>"

/-- The `collectionEntriesHtml` accumulated by `forEach` with `+=`
(lines 48-54). -/
def collectionEntriesHtml (articleId : String) (cs : List Collection) : String :=
  cs.foldl (fun acc c => acc ++ collectionEntryHtml articleId c) ""

/-- The footer line appended after a non-empty list (line 56). -/
def footerHtml : String :=
  "<div class=\"collections-menu-footer\"><a href=\"/collections\"><i class=\"fas fa-cog\"></i> Manage Collections</a></div>"

/-- The empty-state markup (line 58). -/
def emptyStateHtml : String :=
  "<div>No collections yet. <a href=\"/collections\">Create one</a>.</div>"

/-- The full `html` assembled in the `data.status === 'ok'` branch
(lines 46-59): the guard is `data.collections && data.collections.length > 0`,
so an absent or empty list renders the empty state. -/
def renderCollectionsHtml (articleId : String) (collections : Option (List Collection)) : String :=
  match collections with
  | some cs =>
      if cs.length > 0 then
        "<div class=\"collections-list-container\">" ++ collectionEntriesHtml articleId cs ++
          "</div>" ++ footerHtml
      else emptyStateHtml
  | none => emptyStateHtml

/-- The inline error markup written by the `catch` (line 67). -/
def errorHtml : String :=
  "<div class=\"error-message\">Error loading.</div>"

/- ------------------------------------------------------------------ -/
/- toggleCollectionsMenu (lines 13-69)                                -/
/- ------------------------------------------------------------------ -/

/-- Lines 18-22: set `display` to `'none'` on every `.collections-menu`
whose id differs from `menuId`. -/
def hideOtherMenus (menus : Menus) (menuId : String) : Menus :=
  menus.map (fun m => if m.id ≠ menuId then { m with display := "none" } else m)

/-- Apply `f` to the first menu whose id is `menuId` — the element
`getElementById` resolves to; later writes through `targetMenu` /
`contentDiv` hit exactly that element. -/
def setFirstMenu (menus : Menus) (menuId : String) (f : Menu → Menu) : Menus :=
  match menus with
  | [] => []
  | m :: ms => if m.id = menuId then f m :: ms else m :: setFirstMenu ms menuId f

/-- The synchronous prefix of `toggleCollectionsMenu`, up to the `await
fetch` (lines 13-41): either the function returned without fetching
(`done`), or it reached the fetch (`fetching`), with the menus as left
at the suspension point, the parsed `articleId` and the request URL. -/
inductive TogglePhase where
  | done (menus : Menus)
  | fetching (menus : Menus) (articleId : String) (url : String)
deriving DecidableEq, Repr

/-- Lines 13-41.  `getElementById` (line 15) finds the first element
with the given id; if there is none the handler throws on line 24,
after the hide-others pass already ran.  `isVisible` (line 24) reads
the target's display after the pass, which never touches the target.
`articleId` is `menuId.split('-').pop()` (line 37); `splitOn` never
returns `[]`, matching `pop` on a non-empty array. -/
def toggleStart (menus : Menus) (menuId : String) : TogglePhase :=
  match menus.find? (fun m => m.id == menuId) with
  | none => .done (hideOtherMenus menus menuId)
  | some target =>
      let menus1 := hideOtherMenus menus menuId
      if target.display = "block" then
        .done (setFirstMenu menus1 menuId (fun m => { m with display := "none" }))
      else
        let menus2 := setFirstMenu menus1 menuId (fun m => { m with display := "block" })
        if target.loaded then
          .done menus2
        else
          let articleId := (menuId.splitOn "-").getLastD ""
          let menus3 := setFirstMenu menus2 menuId (fun m => { m with content := "Loading..." })
          .fetching menus3 articleId ("/article/" ++ articleId ++ "/collections_status")

/-- The continuation after the fetch (lines 42-68), writing through the
captured `contentDiv`: on a body with `status === 'ok'` it stores the
rendered html and sets the loaded flag (lines 60-61); every failure
path reaches the `catch`, which logs (the returned `Bool`) and stores
the error markup (lines 65-68). -/
def toggleFinish (menus : Menus) (menuId articleId : String) (out : FetchOutcome) :
    Menus × Bool :=
  match out with
  | .httpError =>
      (setFirstMenu menus menuId (fun m => { m with content := errorHtml }), true)
  | .thrown =>
      (setFirstMenu menus menuId (fun m => { m with content := errorHtml }), true)
  | .body status collections _message =>
      if status = "ok" then
        (setFirstMenu menus menuId
          (fun m => { m with content := renderCollectionsHtml articleId collections,
                             loaded := true }), false)
      else
        (setFirstMenu menus menuId (fun m => { m with content := errorHtml }), true)

/-- Result of one complete `toggleCollectionsMenu` call: the menus, the
URL fetched (if the call reached the fetch) and whether `console.error`
ran. -/
structure ToggleResult where
  menus : Menus
  fetched : Option String
  logged : Bool
deriving DecidableEq, Repr

/-- One complete `toggleCollectionsMenu(event, menuId)` call (lines
13-69), with the fetch outcome supplied as `out`.  `event.stopPropagation()`
(line 14) means the document-level listener does not also run for this
click, so a toggle click is exactly one `toggleCollectionsMenu` step. -/
def toggleCollectionsMenu (menus : Menus) (menuId : String) (out : FetchOutcome) :
    ToggleResult :=
  match toggleStart menus menuId with
  | .done ms => { menus := ms, fetched := none, logged := false }
  | .fetching ms articleId url =>
      let (ms2, logged) := toggleFinish ms menuId articleId out
      { menus := ms2, fetched := some url, logged := logged }

/- ------------------------------------------------------------------ -/
/- Date filter (lines 1-11, 71-79)                                    -/
/- ------------------------------------------------------------------ -/

/-- The date-filter region: the `style.display` of `#date-filter-content`
and the `textContent` of the toggle icon. -/
structure DateFilterState where
  contentDisplay : String
  iconText : String
deriving DecidableEq, Repr

/-- Function `toggleDateFilters` (lines 1-11). -/
def toggleDateFilters (s : DateFilterState) : DateFilterState :=
  if s.contentDisplay = "none" ∨ s.contentDisplay = "" then
    { contentDisplay := "block", iconText := "-" }
  else
    { contentDisplay := "none", iconText := "+" }

/-- The date-filter part of the `DOMContentLoaded` handler (lines
73-79): `value` of `#start_date` / `#end_date` as `Option String`
(`none` when the element is absent; JS string truthiness makes `''`
falsy).  The guard `if (startDateEl && endDateEl)` requires BOTH
elements to be present before values are even read. -/
def initDateFilters (startDateVal endDateVal : Option String) (s : DateFilterState) :
    DateFilterState :=
  match startDateVal, endDateVal with
  | some sv, some ev => if sv ≠ "" ∨ ev ≠ "" then toggleDateFilters s else s
  | _, _ => s

/- ------------------------------------------------------------------ -/
/- Global click listener (lines 82-128)                               -/
/- ------------------------------------------------------------------ -/

/-- One element of class `collection-action-button` (the span wrapping
an add/remove button): its `innerHTML`, and — when it sits inside a
`.collection-entry` — the `textContent` of that entry's first `span`
(the collection name written on line 53).  `entryName = none` models
`closest('.collection-entry')` returning null (the ternary on
line 108 then yields `''`). -/
structure ActionButtonContainer where
  entryName : Option String
  html : String
deriving DecidableEq, Repr

/-- Where `target.closest('.collection-action-button')` (line 105)
lands: no such ancestor, or the container at index `i` of the page's
container list. -/
inductive Ancestry where
  | noContainer
  | container (i : Nat)
deriving DecidableEq, Repr

/-- The facts about `event.target` the listener reads: the two
`matches` tests (lines 86-87), the two dataset attributes (lines
91-92; dataset values are strings), the `closest` lookups (lines 105,
122). -/
structure ClickCtx where
  matchesAdd : Bool
  matchesRemove : Bool
  collectionId : String
  articleId : String
  ancestry : Ancestry
  insideMenu : Bool
deriving DecidableEq, Repr

/-- The page state the listener touches: the menus, the
action-button containers, the date-filter region. -/
structure PageState where
  menus : Menus
  containers : List ActionButtonContainer
  dateFilter : DateFilterState
deriving DecidableEq, Repr

/-- The `fetch` options of line 96-100. -/
structure PostRequest where
  url : String
  contentType : String
  xRequestedWith : String
  body : String
deriving DecidableEq, Repr

/-- Observable effects of one listener invocation: `preventDefault`
(line 90), the POST issued (lines 93-100), the `alert` text (line
120), and whether `console.error` ran (line 119). -/
structure ClickEffect where
  preventedDefault : Bool
  request : Option PostRequest
  alertMsg : Option String
  logged : Bool
deriving DecidableEq, Repr

/-- An invocation with no side effects recorded. -/
def noEffect : ClickEffect :=
  { preventedDefault := false, request := none, alertMsg := none, logged := false }

/-- The body `JSON.stringify({ article_id: articleId })` for a string
`articleId` (line 99). -/
def postBodyJson (articleId : String) : String :=
  "\x7b\"article_id\":\"" ++ articleId ++ "\"\x7d"

/-- The on-success DOM patch (lines 104-114): if the target has a
`.collection-action-button` ancestor, replace that container's
`innerHTML` with the opposite-variant button, naming it after the
first span of the enclosing `.collection-entry` (or `''` when there is
none).  Indices past the container list leave the page unchanged
(`List.set` out of range is the identity). -/
def applySuccessPatch (s : PageState) (ev : ClickCtx) (act : String) : PageState :=
  match ev.ancestry with
  | .noContainer => s
  | .container i =>
      match s.containers[i]? with
      | none => s
      | some c =>
          let collectionName := c.entryName.getD ""
          let newButton :=
            if act = "add" then
              removeButtonHtml ev.collectionId ev.articleId collectionName
            else
              addButtonHtml ev.collectionId ev.articleId collectionName
          { s with containers := s.containers.set i { c with html := newButton } }

/-- The document-level click listener (lines 82-128), with the fetch
outcome supplied as `out` (only consulted when a POST is issued).
Structure mirrors the source: classify the target (lines 84-87); on a
recognized action run the POST and patch or alert (lines 89-121);
otherwise close all menus when the click is outside every
`.collections-menu` (lines 122-127), else do nothing. -/
def handleClick (s : PageState) (ev : ClickCtx) (out : FetchOutcome) :
    PageState × ClickEffect :=
  let action : Option String := if ev.matchesAdd then some "add" else none
  let action : Option String := if ev.matchesRemove then some "remove" else action
  match action with
  | some act =>
      let req : PostRequest :=
        { url := "/collection/" ++ ev.collectionId ++ "/" ++ act ++ "_article"
          contentType := "application/json"
          xRequestedWith := "XMLHttpRequest"
          body := postBodyJson ev.articleId }
      match out with
      | .httpError =>
          (s, { preventedDefault := true, request := some req,
                alertMsg := some ("Failed to " ++ act ++ " article."), logged := true })
      | .thrown =>
          (s, { preventedDefault := true, request := some req,
                alertMsg := some ("Failed to " ++ act ++ " article."), logged := true })
      | .body status _collections _message =>
          if status = "ok" then
            (applySuccessPatch s ev act,
             { preventedDefault := true, request := some req,
               alertMsg := none, logged := false })
          else
            (s, { preventedDefault := true, request := some req,
                  alertMsg := some ("Failed to " ++ act ++ " article."), logged := true })
  | none =>
      if ev.insideMenu then (s, noEffect)
      else
        ({ s with menus := s.menus.map (fun m => { m with display := "none" }) }, noEffect)

/- ------------------------------------------------------------------ -/
/- Event sequences                                                    -/
/- ------------------------------------------------------------------ -/

/-- One user click, as dispatched by the page: a toggle-button click
runs `toggleCollectionsMenu` (its `stopPropagation` keeps the document
listener from also firing), any other click runs the document
listener. -/
inductive UIEvent where
  | toggle (menuId : String) (out : FetchOutcome)
  | click (ev : ClickCtx) (out : FetchOutcome)

/-- State transition for one `UIEvent`. -/
def step (s : PageState) (e : UIEvent) : PageState :=
  match e with
  | .toggle menuId out => { s with menus := (toggleCollectionsMenu s.menus menuId out).menus }
  | .click ev out => (handleClick s ev out).1

/-- Running a sequence of events. -/
def run (s : PageState) (es : List UIEvent) : PageState :=
  es.foldl step s

/-- How many menus are shown (`display === 'block'`). -/
def visibleCount (menus : Menus) : Nat :=
  menus.countP (fun m => m.display == "block")

/-- The invariant: at most one `.collections-menu` is visible. -/
def atMostOneVisible (menus : Menus) : Prop :=
  visibleCount menus ≤ 1

/-- Substring containment on the built HTML strings. -/
def htmlContains (hay needle : String) : Prop :=
  List.IsInfix needle.data hay.data

instance (menus : Menus) : Decidable (atMostOneVisible menus) :=
  inferInstanceAs (Decidable (visibleCount menus ≤ 1))

instance (hay needle : String) : Decidable (htmlContains hay needle) :=
  inferInstanceAs (Decidable (List.IsInfix needle.data hay.data))

/-- Lookup of `getElementById` over the menu list: the first menu with
the given element id (line 15). -/
def menuById (menus : Menus) (menuId : String) : Option Menu :=
  menus.find? (fun m => m.id == menuId)

/-- Only the menu `getElementById` would resolve to can be visible:
the property the hide-others pass establishes. -/
def VisOnly (menuId : String) (menus : Menus) : Prop :=
  ∀ m ∈ menus, m.display = "block" → m.id = menuId

/- ------------------------------------------------------------------ -/
/- Helper lemmas about the list operations                            -/
/- ------------------------------------------------------------------ -/

theorem idsOf_hideOtherMenus (menus : Menus) (mid : String) :
    idsOf (hideOtherMenus menus mid) = idsOf menus := by
  simp only [idsOf, hideOtherMenus, List.map_map]
  apply List.map_congr_left
  intro m _
  by_cases h : m.id = mid <;> simp [h]

theorem idsOf_setFirstMenu (menus : Menus) (mid : String) (f : Menu → Menu)
    (hf : ∀ m, (f m).id = m.id) :
    idsOf (setFirstMenu menus mid f) = idsOf menus := by
  induction menus with
  | nil => rfl
  | cons m ms ih =>
      simp only [setFirstMenu]
      by_cases h : m.id = mid
      · simp [h, idsOf, hf]
      · simp [h, idsOf] at ih ⊢
        exact ih

theorem visOnly_hideOtherMenus (menus : Menus) (mid : String) :
    VisOnly mid (hideOtherMenus menus mid) := by
  induction menus with
  | nil => intro m hm; simp [hideOtherMenus] at hm
  | cons m ms ih =>
      intro m' hm' hd
      simp only [hideOtherMenus, List.map_cons, List.mem_cons] at hm'
      rcases hm' with h | h
      · by_cases hid : m.id = mid
        · simp [hid] at h; rw [h]; exact hid
        · simp [hid] at h; rw [h] at hd; simp at hd
      · exact ih m' h hd

theorem visOnly_setFirstMenu (menus : Menus) (mid : String) (f : Menu → Menu)
    (hf : ∀ m, (f m).id = m.id) (h : VisOnly mid menus) :
    VisOnly mid (setFirstMenu menus mid f) := by
  induction menus with
  | nil => intro m hm; simp [setFirstMenu] at hm
  | cons m ms ih =>
      intro m' hm' hd
      simp only [setFirstMenu] at hm'
      by_cases hid : m.id = mid
      · simp [hid, List.mem_cons] at hm'
        rcases hm' with h' | h'
        · rw [h', hf]; exact hid
        · exact h m' (List.mem_cons_of_mem _ h') hd
      · simp [hid, List.mem_cons] at hm'
        rcases hm' with h' | h'
        · exact h m' (h' ▸ List.mem_cons_self m ms) hd
        · exact ih (fun x hx => h x (List.mem_cons_of_mem _ hx)) m' h' hd

theorem visibleCount_le_count_id (menus : Menus) (mid : String)
    (h : VisOnly mid menus) :
    visibleCount menus ≤ (idsOf menus).count mid := by
  induction menus with
  | nil => simp [visibleCount, idsOf]
  | cons m ms ih =>
      have htail : VisOnly mid ms := fun x hx => h x (List.mem_cons_of_mem _ hx)
      simp only [visibleCount, idsOf, List.map_cons, List.countP_cons, List.count_cons] at *
      by_cases hd : m.display = "block"
      · have : m.id = mid := h m (List.mem_cons_self m ms) hd
        simp [hd, this]
        exact ih htail
      · have : (m.display == "block") = false := by
          simp [hd]
        simp [this]
        have := ih htail
        split <;> omega

theorem count_id_le_one (menus : Menus) (mid : String)
    (hnd : (idsOf menus).Nodup) :
    (idsOf menus).count mid ≤ 1 :=
  List.nodup_iff_count_le_one.mp hnd mid

theorem menuById_hideOtherMenus (menus : Menus) (mid : String) :
    menuById (hideOtherMenus menus mid) mid = menuById menus mid := by
  induction menus with
  | nil => rfl
  | cons m ms ih =>
      by_cases h : m.id = mid
      · have hb : (m.id == mid) = true := by simp [h]
        simp [hideOtherMenus, menuById, List.find?_cons, h, hb]
      · have hb : (m.id == mid) = false := by simp [h]
        simp only [hideOtherMenus, menuById, List.map_cons] at *
        rw [if_pos h, List.find?_cons, List.find?_cons]
        simp only [hb, cond_false]
        exact ih

theorem menuById_setFirstMenu (menus : Menus) (mid : String) (f : Menu → Menu)
    (hf : ∀ m, (f m).id = m.id) :
    menuById (setFirstMenu menus mid f) mid = (menuById menus mid).map f := by
  induction menus with
  | nil => rfl
  | cons m ms ih =>
      by_cases h : m.id = mid
      · have hb : (m.id == mid) = true := by simp [h]
        have hfb : ((f m).id == mid) = true := by simp [hf, h]
        simp [setFirstMenu, menuById, List.find?_cons, h, hb, hfb]
      · have hb : (m.id == mid) = false := by simp [h]
        simp only [setFirstMenu, menuById] at *
        rw [if_neg h, List.find?_cons, List.find?_cons]
        simp only [hb, cond_false]
        exact ih

theorem shape_setFirstMenu (base : Menus) (ms : Menus) (mid : String) (f : Menu → Menu)
    (hf : ∀ m, (f m).id = m.id)
    (h : VisOnly mid ms ∧ idsOf ms = idsOf base) :
    VisOnly mid (setFirstMenu ms mid f) ∧ idsOf (setFirstMenu ms mid f) = idsOf base := by
  refine ⟨visOnly_setFirstMenu ms mid f hf h.1, ?_⟩
  rw [idsOf_setFirstMenu ms mid f hf, h.2]

theorem toggleFinish_shape (base : Menus) (ms : Menus) (mid aid : String)
    (out : FetchOutcome) (h : VisOnly mid ms ∧ idsOf ms = idsOf base) :
    VisOnly mid (toggleFinish ms mid aid out).1 ∧
    idsOf (toggleFinish ms mid aid out).1 = idsOf base := by
  cases out with
  | httpError => exact shape_setFirstMenu base ms mid _ (fun _ => rfl) h
  | thrown => exact shape_setFirstMenu base ms mid _ (fun _ => rfl) h
  | body status colls msg =>
      by_cases hs : status = "ok"
      · simp only [toggleFinish, if_pos hs]
        exact shape_setFirstMenu base ms mid _ (fun _ => rfl) h
      · simp only [toggleFinish, if_neg hs]
        exact shape_setFirstMenu base ms mid _ (fun _ => rfl) h

theorem toggle_menus_shape (menus : Menus) (mid : String) (out : FetchOutcome) :
    VisOnly mid (toggleCollectionsMenu menus mid out).menus ∧
    idsOf (toggleCollectionsMenu menus mid out).menus = idsOf menus := by
  have base : VisOnly mid (hideOtherMenus menus mid) ∧
      idsOf (hideOtherMenus menus mid) = idsOf menus :=
    ⟨visOnly_hideOtherMenus menus mid, idsOf_hideOtherMenus menus mid⟩
  simp only [toggleCollectionsMenu, toggleStart]
  cases hfind : menus.find? (fun m => m.id == mid) with
  | none => exact base
  | some t =>
      by_cases hvis : t.display = "block"
      · simp only [if_pos hvis]
        exact shape_setFirstMenu menus _ mid _ (fun _ => rfl) base
      · simp only [if_neg hvis]
        by_cases hl : t.loaded
        · simp only [if_pos hl]
          exact shape_setFirstMenu menus _ mid _ (fun _ => rfl) base
        · simp only [if_neg hl]
          have h3 := shape_setFirstMenu menus _ mid
            (fun m => { m with content := "Loading..." }) (fun _ => rfl)
            (shape_setFirstMenu menus _ mid
              (fun m => { m with display := "block" }) (fun _ => rfl) base)
          have hfin := toggleFinish_shape menus _ mid ((mid.splitOn "-").getLastD "") out h3
          exact hfin

theorem toggle_atMostOne (menus : Menus) (mid : String) (out : FetchOutcome)
    (hnd : (idsOf menus).Nodup) :
    atMostOneVisible (toggleCollectionsMenu menus mid out).menus := by
  have hshape := toggle_menus_shape menus mid out
  have h1 := visibleCount_le_count_id _ mid hshape.1
  rw [hshape.2] at h1
  exact le_trans h1 (count_id_le_one menus mid hnd)

theorem applySuccessPatch_menus (s : PageState) (ev : ClickCtx) (act : String) :
    (applySuccessPatch s ev act).menus = s.menus := by
  rcases hanc : ev.ancestry with _ | i
  · simp [applySuccessPatch, hanc]
  · rcases hc : s.containers[i]? with _ | c <;> simp [applySuccessPatch, hanc, hc]

theorem applySuccessPatch_dateFilter (s : PageState) (ev : ClickCtx) (act : String) :
    (applySuccessPatch s ev act).dateFilter = s.dateFilter := by
  rcases hanc : ev.ancestry with _ | i
  · simp [applySuccessPatch, hanc]
  · rcases hc : s.containers[i]? with _ | c <;> simp [applySuccessPatch, hanc, hc]

theorem handleClick_action_state (s : PageState) (ev : ClickCtx) (out : FetchOutcome)
    (hact : ev.matchesAdd = true ∨ ev.matchesRemove = true) :
    (handleClick s ev out).1 = s ∨
    (handleClick s ev out).1 =
      applySuccessPatch s ev (if ev.matchesRemove then "remove" else "add") := by
  cases hr : ev.matchesRemove with
  | true =>
      cases out with
      | httpError => simp [handleClick, hr]
      | thrown => simp [handleClick, hr]
      | body status colls msg =>
          by_cases hs : status = "ok" <;> simp [handleClick, hr, hs]
  | false =>
      have ha : ev.matchesAdd = true := by
        rcases hact with h | h
        · exact h
        · rw [h] at hr; exact absurd hr (by simp)
      cases out with
      | httpError => simp [handleClick, hr, ha]
      | thrown => simp [handleClick, hr, ha]
      | body status colls msg =>
          by_cases hs : status = "ok" <;> simp [handleClick, hr, ha, hs]

theorem handleClick_menus (s : PageState) (ev : ClickCtx) (out : FetchOutcome) :
    (handleClick s ev out).1.menus = s.menus ∨
    (handleClick s ev out).1.menus = s.menus.map (fun m => { m with display := "none" }) := by
  by_cases hact : ev.matchesAdd = true ∨ ev.matchesRemove = true
  · rcases handleClick_action_state s ev out hact with h | h
    · exact Or.inl (by rw [h])
    · exact Or.inl (by rw [h, applySuccessPatch_menus])
  · push_neg at hact
    have ha : ev.matchesAdd = false := by
      cases h : ev.matchesAdd
      · rfl
      · exact absurd h hact.1
    have hr : ev.matchesRemove = false := by
      cases h : ev.matchesRemove
      · rfl
      · exact absurd h hact.2
    cases him : ev.insideMenu with
    | true => simp [handleClick, ha, hr, him]
    | false => simp [handleClick, ha, hr, him]

theorem visibleCount_allNone (menus : Menus) :
    visibleCount (menus.map (fun m => { m with display := "none" })) = 0 := by
  have hnb : (("none" : String) == "block") = false := by decide
  induction menus with
  | nil => rfl
  | cons m ms ih =>
      simp only [List.map_cons, visibleCount, List.countP_cons, hnb] at *
      simp [ih]

theorem idsOf_allNone (menus : Menus) :
    idsOf (menus.map (fun m => { m with display := "none" })) = idsOf menus := by
  simp only [idsOf, List.map_map]
  apply List.map_congr_left
  intro m _
  rfl

theorem step_ids (s : PageState) (e : UIEvent) :
    idsOf (step s e).menus = idsOf s.menus := by
  cases e with
  | toggle mid out => exact (toggle_menus_shape s.menus mid out).2
  | click ev out =>
      rcases handleClick_menus s ev out with h | h <;> rw [step, h]
      exact idsOf_allNone s.menus

theorem step_atMostOne (s : PageState) (e : UIEvent)
    (hnd : (idsOf s.menus).Nodup) (h0 : atMostOneVisible s.menus) :
    atMostOneVisible (step s e).menus := by
  cases e with
  | toggle mid out => exact toggle_atMostOne s.menus mid out hnd
  | click ev out =>
      rcases handleClick_menus s ev out with h | h <;> rw [step, h]
      · exact h0
      · rw [atMostOneVisible, visibleCount_allNone]
        exact Nat.zero_le 1

/- ------------------------------------------------------------------ -/
/- Claims                                                             -/
/- ------------------------------------------------------------------ -/

/-- C1: for every sequence of clicks dispatched to
`toggleCollectionsMenu` and to the global document click listener, at
most one `.collections-menu` has `display = 'block'` at any time:
`toggleCollectionsMenu` first sets every other menu's display to
`'none'` before showing its target, and an outside click sets every
menu's display to `'none'`.  (Stated for a page whose menu element ids
are distinct, as the DOM requires of ids, and that starts with at most
one visible menu.) -/
theorem menus_mutual_exclusion (s : PageState) (es : List UIEvent)
    (hnd : (idsOf s.menus).Nodup) (h0 : atMostOneVisible s.menus) :
    atMostOneVisible (run s es).menus := by
  induction es generalizing s with
  | nil => exact h0
  | cons e es ih =>
      have hrun : run s (e :: es) = run (step s e) es := rfl
      rw [hrun]
      exact ih (step s e) (by rw [step_ids]; exact hnd) (step_atMostOne s e hnd h0)

/-- Witness for C1 at a concrete page and click sequence. -/
theorem menus_mutual_exclusion_witness :
    (idsOf [⟨"collections-menu-1", "none", "", false⟩,
            ⟨"collections-menu-2", "block", "", false⟩]).Nodup ∧
    atMostOneVisible [⟨"collections-menu-1", "none", "", false⟩,
                      ⟨"collections-menu-2", "block", "", false⟩] ∧
    atMostOneVisible
      (run ⟨[⟨"collections-menu-1", "none", "", false⟩,
             ⟨"collections-menu-2", "block", "", false⟩], [], ⟨"", "+"⟩⟩
        [.toggle "collections-menu-1" (.body "ok" none none),
         .click ⟨false, false, "", "", .noContainer, false⟩ .httpError]).menus :=
  ⟨by decide, by decide,
   menus_mutual_exclusion
     ⟨[⟨"collections-menu-1", "none", "", false⟩,
       ⟨"collections-menu-2", "block", "", false⟩], [], ⟨"", "+"⟩⟩
     [.toggle "collections-menu-1" (.body "ok" none none),
      .click ⟨false, false, "", "", .noContainer, false⟩ .httpError]
     (by decide) (by decide)⟩

theorem toggleStart_visible_eval (menus : Menus) (mid : String) (t : Menu)
    (hfind : menuById menus mid = some t) (hvis : t.display = "block") :
    toggleStart menus mid =
      .done (setFirstMenu (hideOtherMenus menus mid) mid
        (fun m => { m with display := "none" })) := by
  have hfind' : menus.find? (fun m => m.id == mid) = some t := hfind
  simp only [toggleStart, hfind', if_pos hvis]

theorem toggleStart_loaded_eval (menus : Menus) (mid : String) (t : Menu)
    (hfind : menuById menus mid = some t) (hvis : ¬ t.display = "block")
    (hl : t.loaded = true) :
    toggleStart menus mid =
      .done (setFirstMenu (hideOtherMenus menus mid) mid
        (fun m => { m with display := "block" })) := by
  have hfind' : menus.find? (fun m => m.id == mid) = some t := hfind
  simp only [toggleStart, hfind', if_neg hvis, hl, if_pos]

theorem toggleStart_fetch_eval (menus : Menus) (mid : String) (t : Menu)
    (hfind : menuById menus mid = some t) (hvis : ¬ t.display = "block")
    (hnl : t.loaded = false) :
    toggleStart menus mid =
      .fetching
        (setFirstMenu (setFirstMenu (hideOtherMenus menus mid) mid
            (fun m => { m with display := "block" })) mid
          (fun m => { m with content := "Loading..." }))
        ((mid.splitOn "-").getLastD "")
        ("/article/" ++ (mid.splitOn "-").getLastD "" ++ "/collections_status") := by
  have hfind' : menus.find? (fun m => m.id == mid) = some t := hfind
  simp only [toggleStart, hfind', if_neg hvis, hnl]
  simp

theorem toggle_visible_eval (menus : Menus) (mid : String) (t : Menu) (out : FetchOutcome)
    (hfind : menuById menus mid = some t) (hvis : t.display = "block") :
    toggleCollectionsMenu menus mid out =
      { menus := setFirstMenu (hideOtherMenus menus mid) mid
          (fun m => { m with display := "none" }),
        fetched := none, logged := false } := by
  simp only [toggleCollectionsMenu, toggleStart_visible_eval menus mid t hfind hvis]

theorem toggle_loaded_eval (menus : Menus) (mid : String) (t : Menu) (out : FetchOutcome)
    (hfind : menuById menus mid = some t) (hvis : ¬ t.display = "block")
    (hl : t.loaded = true) :
    toggleCollectionsMenu menus mid out =
      { menus := setFirstMenu (hideOtherMenus menus mid) mid
          (fun m => { m with display := "block" }),
        fetched := none, logged := false } := by
  simp only [toggleCollectionsMenu, toggleStart_loaded_eval menus mid t hfind hvis hl]

theorem toggle_of_fetching (menus : Menus) (mid : String) (out : FetchOutcome)
    (ms : Menus) (aid url : String)
    (h : toggleStart menus mid = .fetching ms aid url) :
    toggleCollectionsMenu menus mid out =
      { menus := (toggleFinish ms mid aid out).1,
        fetched := some url,
        logged := (toggleFinish ms mid aid out).2 } := by
  simp only [toggleCollectionsMenu, h]

theorem toggleFinish_ok (ms : Menus) (mid aid : String)
    (colls : Option (List Collection)) (msg : Option String) :
    toggleFinish ms mid aid (.body "ok" colls msg) =
      (setFirstMenu ms mid
        (fun m => { m with content := renderCollectionsHtml aid colls, loaded := true }),
       false) := by
  simp [toggleFinish]

theorem toggleFinish_fail (ms : Menus) (mid aid : String) (out : FetchOutcome)
    (hfail : out = .httpError ∨ out = .thrown ∨
             ∃ st colls msg, out = .body st colls msg ∧ st ≠ "ok") :
    toggleFinish ms mid aid out =
      (setFirstMenu ms mid (fun m => { m with content := errorHtml }), true) := by
  rcases hfail with h | h | ⟨st, colls, msg, h, hne⟩ <;> subst h
  · rfl
  · rfl
  · simp [toggleFinish, hne]

theorem menuById_toggle_visible (menus : Menus) (mid : String) (t : Menu) (out : FetchOutcome)
    (hfind : menuById menus mid = some t) (hvis : t.display = "block") :
    menuById (toggleCollectionsMenu menus mid out).menus mid =
      some { t with display := "none" } := by
  rw [toggle_visible_eval menus mid t out hfind hvis]
  rw [menuById_setFirstMenu, menuById_hideOtherMenus, hfind]
  · rfl
  · exact fun _ => rfl

theorem menuById_toggle_loaded (menus : Menus) (mid : String) (t : Menu) (out : FetchOutcome)
    (hfind : menuById menus mid = some t) (hvis : ¬ t.display = "block")
    (hl : t.loaded = true) :
    menuById (toggleCollectionsMenu menus mid out).menus mid =
      some { t with display := "block" } := by
  rw [toggle_loaded_eval menus mid t out hfind hvis hl]
  rw [menuById_setFirstMenu, menuById_hideOtherMenus, hfind]
  · rfl
  · exact fun _ => rfl

theorem menuById_toggle_fetch_ok (menus : Menus) (mid : String) (t : Menu)
    (colls : Option (List Collection)) (msg : Option String)
    (hfind : menuById menus mid = some t) (hvis : ¬ t.display = "block")
    (hnl : t.loaded = false) :
    menuById (toggleCollectionsMenu menus mid (.body "ok" colls msg)).menus mid =
      some { t with display := "block",
                    content := renderCollectionsHtml ((mid.splitOn "-").getLastD "") colls,
                    loaded := true } ∧
    (toggleCollectionsMenu menus mid (.body "ok" colls msg)).fetched =
      some ("/article/" ++ (mid.splitOn "-").getLastD "" ++ "/collections_status") ∧
    (toggleCollectionsMenu menus mid (.body "ok" colls msg)).logged = false := by
  rw [toggle_of_fetching menus mid (.body "ok" colls msg) _ _ _
        (toggleStart_fetch_eval menus mid t hfind hvis hnl),
      toggleFinish_ok]
  refine ⟨?_, rfl, rfl⟩
  rw [menuById_setFirstMenu, menuById_setFirstMenu, menuById_setFirstMenu,
      menuById_hideOtherMenus, hfind]
  · rfl
  · exact fun _ => rfl
  · exact fun _ => rfl
  · exact fun _ => rfl

theorem menuById_toggle_fetch_fail (menus : Menus) (mid : String) (t : Menu)
    (out : FetchOutcome)
    (hfind : menuById menus mid = some t) (hvis : ¬ t.display = "block")
    (hnl : t.loaded = false)
    (hfail : out = .httpError ∨ out = .thrown ∨
             ∃ st colls msg, out = .body st colls msg ∧ st ≠ "ok") :
    menuById (toggleCollectionsMenu menus mid out).menus mid =
      some { t with display := "block", content := errorHtml } ∧
    (toggleCollectionsMenu menus mid out).fetched =
      some ("/article/" ++ (mid.splitOn "-").getLastD "" ++ "/collections_status") ∧
    (toggleCollectionsMenu menus mid out).logged = true := by
  rw [toggle_of_fetching menus mid out _ _ _
        (toggleStart_fetch_eval menus mid t hfind hvis hnl),
      toggleFinish_fail _ _ _ _ hfail]
  refine ⟨?_, rfl, rfl⟩
  rw [menuById_setFirstMenu, menuById_setFirstMenu, menuById_setFirstMenu,
      menuById_hideOtherMenus, hfind]
  · rfl
  · exact fun _ => rfl
  · exact fun _ => rfl
  · exact fun _ => rfl

/-- C2: `toggleCollectionsMenu` issues no network request when (1) the
targeted menu's display is `'block'` — it hides the menu and returns —
or (2) the menu is hidden but its content div's loaded flag is set —
it shows the menu and returns.  In both cases `fetched = none`, so
opening a menu whose content was already successfully loaded never
issues a second request. -/
theorem toggle_no_refetch (menus : Menus) (mid : String) (t : Menu) (out : FetchOutcome)
    (hfind : menuById menus mid = some t) :
    (t.display = "block" →
        (toggleCollectionsMenu menus mid out).fetched = none ∧
        (menuById (toggleCollectionsMenu menus mid out).menus mid).map Menu.display =
          some "none") ∧
    (¬ t.display = "block" → t.loaded = true →
        (toggleCollectionsMenu menus mid out).fetched = none ∧
        (menuById (toggleCollectionsMenu menus mid out).menus mid).map Menu.display =
          some "block") := by
  constructor
  · intro hvis
    constructor
    · rw [toggle_visible_eval menus mid t out hfind hvis]
    · rw [menuById_toggle_visible menus mid t out hfind hvis]
      rfl
  · intro hvis hl
    constructor
    · rw [toggle_loaded_eval menus mid t out hfind hvis hl]
    · rw [menuById_toggle_loaded menus mid t out hfind hvis hl]
      rfl

/-- Witness for C2 on a one-menu page, exercising the toggle-off case. -/
theorem toggle_no_refetch_witness :
    menuById [⟨"collections-menu-5", "block", "x", true⟩] "collections-menu-5" =
      some ⟨"collections-menu-5", "block", "x", true⟩ ∧
    ((toggleCollectionsMenu [⟨"collections-menu-5", "block", "x", true⟩]
        "collections-menu-5" .httpError).fetched = none ∧
     (menuById (toggleCollectionsMenu [⟨"collections-menu-5", "block", "x", true⟩]
        "collections-menu-5" .httpError).menus "collections-menu-5").map Menu.display =
       some "none") :=
  ⟨by decide,
   (toggle_no_refetch [⟨"collections-menu-5", "block", "x", true⟩] "collections-menu-5"
      ⟨"collections-menu-5", "block", "x", true⟩ .httpError (by decide)).1 rfl⟩

/-- C8: opening a not-yet-loaded menu sets the content area to the
`Loading...` placeholder and issues a GET to
`/article/{articleId}/collections_status`, with `articleId` the last
`'-'`-separated segment of the menu's element id. -/
theorem toggle_fetch_request (menus : Menus) (mid : String) (t : Menu)
    (hfind : menuById menus mid = some t) (hvis : ¬ t.display = "block")
    (hnl : t.loaded = false) :
    ∃ ms,
      toggleStart menus mid =
        TogglePhase.fetching ms ((mid.splitOn "-").getLastD "")
          ("/article/" ++ (mid.splitOn "-").getLastD "" ++ "/collections_status") ∧
      (menuById ms mid).map Menu.content = some "Loading..." ∧
      (menuById ms mid).map Menu.display = some "block" := by
  have hmb : menuById (setFirstMenu (setFirstMenu (hideOtherMenus menus mid) mid
      (fun m => { m with display := "block" })) mid
      (fun m => { m with content := "Loading..." })) mid =
      some { t with display := "block", content := "Loading..." } := by
    rw [menuById_setFirstMenu, menuById_setFirstMenu, menuById_hideOtherMenus, hfind]
    · rfl
    · exact fun _ => rfl
    · exact fun _ => rfl
  exact ⟨_, toggleStart_fetch_eval menus mid t hfind hvis hnl,
    by rw [hmb]; rfl, by rw [hmb]; rfl⟩

/-- Witness for C8: menu id `collections-menu-7` yields article id `7`. -/
theorem toggle_fetch_request_witness :
    menuById [⟨"collections-menu-7", "none", "", false⟩] "collections-menu-7" =
      some ⟨"collections-menu-7", "none", "", false⟩ ∧
    (¬ ("none" : String) = "block") ∧
    ∃ ms,
      toggleStart [⟨"collections-menu-7", "none", "", false⟩] "collections-menu-7" =
        TogglePhase.fetching ms (("collections-menu-7".splitOn "-").getLastD "")
          ("/article/" ++ ("collections-menu-7".splitOn "-").getLastD "" ++
            "/collections_status") ∧
      (menuById ms "collections-menu-7").map Menu.content = some "Loading..." ∧
      (menuById ms "collections-menu-7").map Menu.display = some "block" :=
  ⟨by decide, by decide,
   toggle_fetch_request [⟨"collections-menu-7", "none", "", false⟩] "collections-menu-7"
     ⟨"collections-menu-7", "none", "", false⟩ (by decide) (by decide) rfl⟩

/-- C5: on a failed collections_status load (non-ok HTTP status, thrown
error, or a body with `status !== 'ok'`), the menu content is replaced
by the generic error markup, the error is logged, and the loaded flag
stays unset — so after the next click closes the menu, the open after
that reaches the fetch again. -/
theorem toggle_failure_retry (menus : Menus) (mid : String) (t : Menu)
    (out out2 : FetchOutcome)
    (hfind : menuById menus mid = some t) (hvis : ¬ t.display = "block")
    (hnl : t.loaded = false)
    (hfail : out = .httpError ∨ out = .thrown ∨
             ∃ st colls msg, out = .body st colls msg ∧ st ≠ "ok") :
    (toggleCollectionsMenu menus mid out).logged = true ∧
    (menuById (toggleCollectionsMenu menus mid out).menus mid).map Menu.content =
      some errorHtml ∧
    (menuById (toggleCollectionsMenu menus mid out).menus mid).map Menu.loaded =
      some false ∧
    (toggleCollectionsMenu (toggleCollectionsMenu menus mid out).menus mid out2).fetched =
      none ∧
    ∃ ms,
      toggleStart (toggleCollectionsMenu
          (toggleCollectionsMenu menus mid out).menus mid out2).menus mid =
        TogglePhase.fetching ms ((mid.splitOn "-").getLastD "")
          ("/article/" ++ (mid.splitOn "-").getLastD "" ++ "/collections_status") := by
  have h1 := menuById_toggle_fetch_fail menus mid t out hfind hvis hnl hfail
  refine ⟨h1.2.2, ?_, ?_, ?_, ?_⟩
  · rw [h1.1]
    rfl
  · rw [h1.1]
    simp [hnl]
  · rw [toggle_visible_eval _ mid { t with display := "block", content := errorHtml }
      out2 h1.1 rfl]
  · exact ⟨_, toggleStart_fetch_eval _ mid { t with display := "none", content := errorHtml }
      (menuById_toggle_visible _ mid { t with display := "block", content := errorHtml }
        out2 h1.1 rfl)
      ((by decide : ¬ ("none" : String) = "block") : _) hnl⟩

/-- Witness for C5 with an application-level failure body. -/
theorem toggle_failure_retry_witness :
    menuById [⟨"collections-menu-9", "none", "", false⟩] "collections-menu-9" =
      some ⟨"collections-menu-9", "none", "", false⟩ ∧
    (toggleCollectionsMenu [⟨"collections-menu-9", "none", "", false⟩]
      "collections-menu-9" (.body "error" none (some "boom"))).logged = true :=
  ⟨by decide,
   (toggle_failure_retry [⟨"collections-menu-9", "none", "", false⟩] "collections-menu-9"
      ⟨"collections-menu-9", "none", "", false⟩ (.body "error" none (some "boom")) .thrown
      (by decide) (by decide) rfl
      (Or.inr (Or.inr ⟨"error", none, some "boom", rfl, by decide⟩))).1⟩

theorem htmlContains_self (s : String) : htmlContains s s :=
  ⟨[], [], by simp⟩

theorem htmlContains_appendL {a n : String} (b : String) (h : htmlContains a n) :
    htmlContains (a ++ b) n := by
  show List.IsInfix n.data (a ++ b).data
  rw [String.data_append]
  exact h.trans (List.prefix_append _ _).isInfix

theorem htmlContains_appendR {b n : String} (a : String) (h : htmlContains b n) :
    htmlContains (a ++ b) n := by
  show List.IsInfix n.data (a ++ b).data
  rw [String.data_append]
  exact h.trans (List.suffix_append _ _).isInfix

theorem htmlContains_intro (p n s : String) : htmlContains (p ++ n ++ s) n :=
  htmlContains_appendL s (htmlContains_appendR p (htmlContains_self n))

theorem htmlContains_trans {hay mids n : String} (h1 : htmlContains mids n)
    (h2 : htmlContains hay mids) : htmlContains hay n :=
  List.IsInfix.trans h1 h2

theorem removeButton_class (cid aid nm : String) :
    htmlContains (removeButtonHtml cid aid nm) "btn-remove-from-collection" := by
  unfold removeButtonHtml
  apply htmlContains_appendL
  apply htmlContains_appendL
  apply htmlContains_appendL
  apply htmlContains_appendL
  apply htmlContains_appendL
  apply htmlContains_appendL
  decide

theorem addButton_class (cid aid nm : String) :
    htmlContains (addButtonHtml cid aid nm) "btn-add-to-collection" := by
  unfold addButtonHtml
  apply htmlContains_appendL
  apply htmlContains_appendL
  apply htmlContains_appendL
  apply htmlContains_appendL
  apply htmlContains_appendL
  apply htmlContains_appendL
  decide

theorem removeButton_collection_id (cid aid nm : String) :
    htmlContains (removeButtonHtml cid aid nm) ("data-collection-id=\"" ++ cid ++ "\"") := by
  have key : removeButtonHtml cid aid nm =
      "<button class=\"btn btn-clear btn-remove-from-collection\" " ++
        ("data-collection-id=\"" ++ cid ++ "\"") ++
        (" data-article-id=\"" ++ aid ++ "\" title=\"Remove from " ++ nm ++
          "\"><i class=\"fas fa-minus\"></i></button>") := by
    unfold removeButtonHtml
    rw [show ("<button class=\"btn btn-clear btn-remove-from-collection\" data-collection-id=\"" : String) =
          "<button class=\"btn btn-clear btn-remove-from-collection\" " ++
            "data-collection-id=\"" from by decide,
        show ("\" data-article-id=\"" : String) = "\"" ++ " data-article-id=\"" from by decide]
    simp only [String.append_assoc]
  rw [key]
  exact htmlContains_intro _ _ _

theorem removeButton_article_id (cid aid nm : String) :
    htmlContains (removeButtonHtml cid aid nm) ("data-article-id=\"" ++ aid ++ "\"") := by
  have key : removeButtonHtml cid aid nm =
      "<button class=\"btn btn-clear btn-remove-from-collection\" data-collection-id=\"" ++
        cid ++ "\" " ++
        ("data-article-id=\"" ++ aid ++ "\"") ++
        (" title=\"Remove from " ++ nm ++ "\"><i class=\"fas fa-minus\"></i></button>") := by
    unfold removeButtonHtml
    rw [show ("\" data-article-id=\"" : String) = "\" " ++ "data-article-id=\"" from by decide,
        show ("\" title=\"Remove from " : String) = "\"" ++ " title=\"Remove from " from by decide]
    simp only [String.append_assoc]
  rw [key]
  exact htmlContains_intro _ _ _

theorem removeButton_title (cid aid nm : String) :
    htmlContains (removeButtonHtml cid aid nm)
      ("title=\"Remove from " ++ nm ++ "\"") := by
  have key : removeButtonHtml cid aid nm =
      "<button class=\"btn btn-clear btn-remove-from-collection\" data-collection-id=\"" ++
        cid ++ "\" data-article-id=\"" ++ aid ++ "\" " ++
        ("title=\"Remove from " ++ nm ++ "\"") ++
        "><i class=\"fas fa-minus\"></i></button>" := by
    unfold removeButtonHtml
    rw [show ("\" title=\"Remove from " : String) = "\" " ++ "title=\"Remove from " from by decide,
        show ("\"><i class=\"fas fa-minus\"></i></button>" : String) =
          "\"" ++ "><i class=\"fas fa-minus\"></i></button>" from by decide]
    simp only [String.append_assoc]
  rw [key]
  exact htmlContains_intro _ _ _

theorem addButton_collection_id (cid aid nm : String) :
    htmlContains (addButtonHtml cid aid nm) ("data-collection-id=\"" ++ cid ++ "\"") := by
  have key : addButtonHtml cid aid nm =
      "<button class=\"btn btn-filter btn-add-to-collection\" " ++
        ("data-collection-id=\"" ++ cid ++ "\"") ++
        (" data-article-id=\"" ++ aid ++ "\" title=\"Add to " ++ nm ++
          "\"><i class=\"fas fa-plus\"></i></button>") := by
    unfold addButtonHtml
    rw [show ("<button class=\"btn btn-filter btn-add-to-collection\" data-collection-id=\"" : String) =
          "<button class=\"btn btn-filter btn-add-to-collection\" " ++
            "data-collection-id=\"" from by decide,
        show ("\" data-article-id=\"" : String) = "\"" ++ " data-article-id=\"" from by decide]
    simp only [String.append_assoc]
  rw [key]
  exact htmlContains_intro _ _ _

theorem addButton_article_id (cid aid nm : String) :
    htmlContains (addButtonHtml cid aid nm) ("data-article-id=\"" ++ aid ++ "\"") := by
  have key : addButtonHtml cid aid nm =
      "<button class=\"btn btn-filter btn-add-to-collection\" data-collection-id=\"" ++
        cid ++ "\" " ++
        ("data-article-id=\"" ++ aid ++ "\"") ++
        (" title=\"Add to " ++ nm ++ "\"><i class=\"fas fa-plus\"></i></button>") := by
    unfold addButtonHtml
    rw [show ("\" data-article-id=\"" : String) = "\" " ++ "data-article-id=\"" from by decide,
        show ("\" title=\"Add to " : String) = "\"" ++ " title=\"Add to " from by decide]
    simp only [String.append_assoc]
  rw [key]
  exact htmlContains_intro _ _ _

theorem addButton_title (cid aid nm : String) :
    htmlContains (addButtonHtml cid aid nm) ("title=\"Add to " ++ nm ++ "\"") := by
  have key : addButtonHtml cid aid nm =
      "<button class=\"btn btn-filter btn-add-to-collection\" data-collection-id=\"" ++
        cid ++ "\" data-article-id=\"" ++ aid ++ "\" " ++
        ("title=\"Add to " ++ nm ++ "\"") ++
        "><i class=\"fas fa-plus\"></i></button>" := by
    unfold addButtonHtml
    rw [show ("\" title=\"Add to " : String) = "\" " ++ "title=\"Add to " from by decide,
        show ("\"><i class=\"fas fa-plus\"></i></button>" : String) =
          "\"" ++ "><i class=\"fas fa-plus\"></i></button>" from by decide]
    simp only [String.append_assoc]
  rw [key]
  exact htmlContains_intro _ _ _

theorem entry_has_name (aid : String) (c : Collection) :
    htmlContains (collectionEntryHtml aid c) c.name := by
  unfold collectionEntryHtml
  apply htmlContains_appendL
  apply htmlContains_appendL
  apply htmlContains_appendL
  apply htmlContains_appendR
  exact htmlContains_self _

theorem entry_has_button (aid : String) (c : Collection) :
    htmlContains (collectionEntryHtml aid c) (collectionButtonHtml aid c) := by
  unfold collectionEntryHtml
  apply htmlContains_appendL
  apply htmlContains_appendR
  exact htmlContains_self _

theorem entriesHtml_acc (aid : String) (cs : List Collection) (acc : String) :
    List.foldl (fun a x => a ++ collectionEntryHtml aid x) acc cs =
      acc ++ List.foldl (fun a x => a ++ collectionEntryHtml aid x) "" cs := by
  induction cs generalizing acc with
  | nil => simp
  | cons c cs ih =>
      rw [List.foldl_cons, List.foldl_cons, ih (acc ++ collectionEntryHtml aid c),
          ih (("" : String) ++ collectionEntryHtml aid c)]
      simp [String.append_assoc]

theorem entry_infix_entriesHtml (aid : String) (cs : List Collection) (c : Collection)
    (hc : c ∈ cs) :
    htmlContains (collectionEntriesHtml aid cs) (collectionEntryHtml aid c) := by
  induction cs with
  | nil => cases hc
  | cons d ds ih =>
      rw [collectionEntriesHtml, List.foldl_cons, entriesHtml_acc]
      rcases List.mem_cons.mp hc with h | h
      · subst h
        apply htmlContains_appendL
        apply htmlContains_appendR
        exact htmlContains_self _
      · apply htmlContains_appendR
        exact ih h

theorem entry_infix_render (aid : String) (cs : List Collection) (c : Collection)
    (hc : c ∈ cs) :
    htmlContains (renderCollectionsHtml aid (some cs)) (collectionEntryHtml aid c) := by
  have hpos : cs.length > 0 := by
    cases cs
    · cases hc
    · simp
  simp only [renderCollectionsHtml, if_pos hpos]
  apply htmlContains_appendL
  apply htmlContains_appendL
  apply htmlContains_appendR
  exact entry_infix_entriesHtml aid cs c hc

theorem render_footer_suffix (aid : String) (cs : List Collection) (h : cs ≠ []) :
    ∃ pre, renderCollectionsHtml aid (some cs) = pre ++ footerHtml := by
  have hpos : cs.length > 0 := List.length_pos.mpr h
  simp only [renderCollectionsHtml, if_pos hpos]
  exact ⟨_, rfl⟩

theorem render_empty_eq (aid : String) (colls : Option (List Collection))
    (h : colls = none ∨ colls = some []) :
    renderCollectionsHtml aid colls = emptyStateHtml := by
  rcases h with h | h <;> subst h <;> simp [renderCollectionsHtml]

theorem entry_facts_of_contains (aid : String) (c : Collection) (h : c.contains = true) :
    collectionButtonHtml aid c = removeButtonHtml c.id aid c.name ∧
    htmlContains (collectionEntryHtml aid c) c.name ∧
    htmlContains (collectionEntryHtml aid c) "btn-remove-from-collection" ∧
    htmlContains (collectionEntryHtml aid c) ("data-collection-id=\"" ++ c.id ++ "\"") ∧
    htmlContains (collectionEntryHtml aid c) ("data-article-id=\"" ++ aid ++ "\"") := by
  have hbtn : collectionButtonHtml aid c = removeButtonHtml c.id aid c.name := by
    simp [collectionButtonHtml, h]
  have hbe : htmlContains (collectionEntryHtml aid c) (removeButtonHtml c.id aid c.name) := by
    rw [← hbtn]
    exact entry_has_button aid c
  exact ⟨hbtn, entry_has_name aid c,
    htmlContains_trans (removeButton_class c.id aid c.name) hbe,
    htmlContains_trans (removeButton_collection_id c.id aid c.name) hbe,
    htmlContains_trans (removeButton_article_id c.id aid c.name) hbe⟩

theorem entry_facts_of_not_contains (aid : String) (c : Collection) (h : c.contains = false) :
    collectionButtonHtml aid c = addButtonHtml c.id aid c.name ∧
    htmlContains (collectionEntryHtml aid c) c.name ∧
    htmlContains (collectionEntryHtml aid c) "btn-add-to-collection" ∧
    htmlContains (collectionEntryHtml aid c) ("data-collection-id=\"" ++ c.id ++ "\"") ∧
    htmlContains (collectionEntryHtml aid c) ("data-article-id=\"" ++ aid ++ "\"") := by
  have hbtn : collectionButtonHtml aid c = addButtonHtml c.id aid c.name := by
    simp [collectionButtonHtml, h]
  have hbe : htmlContains (collectionEntryHtml aid c) (addButtonHtml c.id aid c.name) := by
    rw [← hbtn]
    exact entry_has_button aid c
  exact ⟨hbtn, entry_has_name aid c,
    htmlContains_trans (addButton_class c.id aid c.name) hbe,
    htmlContains_trans (addButton_collection_id c.id aid c.name) hbe,
    htmlContains_trans (addButton_article_id c.id aid c.name) hbe⟩

/-- C3: on a successful collections_status load (HTTP ok, body
`status === 'ok'`), each entry with `contains: true` is rendered as a
row containing the collection's name and the remove-variant button
(class `btn-remove-from-collection`), each entry with `contains: false`
as the add-variant button, every button carrying `data-collection-id`
equal to the entry's id and `data-article-id` equal to the article id;
an empty or absent list renders the empty-state message with a create
link and no list container; a non-empty list gets the management
footer appended; and the content div's loaded flag is set. -/
theorem toggle_success_render (menus : Menus) (mid : String) (t : Menu)
    (colls : Option (List Collection)) (msg : Option String)
    (hfind : menuById menus mid = some t)
    (hvis : ¬ t.display = "block") (hnl : t.loaded = false) :
    (menuById (toggleCollectionsMenu menus mid (.body "ok" colls msg)).menus mid).map
        Menu.loaded = some true ∧
    (menuById (toggleCollectionsMenu menus mid (.body "ok" colls msg)).menus mid).map
        Menu.content =
      some (renderCollectionsHtml ((mid.splitOn "-").getLastD "") colls) ∧
    (∀ cs, colls = some cs → ∀ c ∈ cs,
      htmlContains (renderCollectionsHtml ((mid.splitOn "-").getLastD "") colls)
          (collectionEntryHtml ((mid.splitOn "-").getLastD "") c) ∧
      (c.contains = true →
        collectionButtonHtml ((mid.splitOn "-").getLastD "") c =
          removeButtonHtml c.id ((mid.splitOn "-").getLastD "") c.name ∧
        htmlContains (collectionEntryHtml ((mid.splitOn "-").getLastD "") c) c.name ∧
        htmlContains (collectionEntryHtml ((mid.splitOn "-").getLastD "") c)
          "btn-remove-from-collection" ∧
        htmlContains (collectionEntryHtml ((mid.splitOn "-").getLastD "") c)
          ("data-collection-id=\"" ++ c.id ++ "\"") ∧
        htmlContains (collectionEntryHtml ((mid.splitOn "-").getLastD "") c)
          ("data-article-id=\"" ++ (mid.splitOn "-").getLastD "" ++ "\"")) ∧
      (c.contains = false →
        collectionButtonHtml ((mid.splitOn "-").getLastD "") c =
          addButtonHtml c.id ((mid.splitOn "-").getLastD "") c.name ∧
        htmlContains (collectionEntryHtml ((mid.splitOn "-").getLastD "") c) c.name ∧
        htmlContains (collectionEntryHtml ((mid.splitOn "-").getLastD "") c)
          "btn-add-to-collection" ∧
        htmlContains (collectionEntryHtml ((mid.splitOn "-").getLastD "") c)
          ("data-collection-id=\"" ++ c.id ++ "\"") ∧
        htmlContains (collectionEntryHtml ((mid.splitOn "-").getLastD "") c)
          ("data-article-id=\"" ++ (mid.splitOn "-").getLastD "" ++ "\""))) ∧
    ((colls = none ∨ colls = some []) →
      renderCollectionsHtml ((mid.splitOn "-").getLastD "") colls = emptyStateHtml ∧
      htmlContains emptyStateHtml "No collections yet." ∧
      htmlContains emptyStateHtml "<a href=\"/collections\">Create one</a>" ∧
      ¬ htmlContains emptyStateHtml "collections-list-container") ∧
    (∀ cs, colls = some cs → cs ≠ [] →
      ∃ pre, renderCollectionsHtml ((mid.splitOn "-").getLastD "") colls =
        pre ++ footerHtml) := by
  obtain ⟨hmb, -, -⟩ := menuById_toggle_fetch_ok menus mid t colls msg hfind hvis hnl
  refine ⟨?_, ?_, ?_, ?_, ?_⟩
  · rw [hmb]
    rfl
  · rw [hmb]
    rfl
  · rintro cs rfl c hc
    exact ⟨entry_infix_render _ cs c hc,
      fun h => entry_facts_of_contains _ c h,
      fun h => entry_facts_of_not_contains _ c h⟩
  · intro h
    refine ⟨render_empty_eq _ colls h, ?_, ?_, ?_⟩
    · set_option maxRecDepth 4096 in decide
    · set_option maxRecDepth 4096 in decide
    · set_option maxRecDepth 4096 in decide
  · rintro cs rfl hne
    exact render_footer_suffix _ cs hne

/-- Witness for C3: a two-entry response on a one-menu page. -/
theorem toggle_success_render_witness :
    menuById [⟨"collections-menu-3", "none", "", false⟩] "collections-menu-3" =
      some ⟨"collections-menu-3", "none", "", false⟩ ∧
    (menuById (toggleCollectionsMenu [⟨"collections-menu-3", "none", "", false⟩]
        "collections-menu-3"
        (.body "ok" (some [⟨"1", "Favorites", true⟩, ⟨"2", "Later", false⟩]) none)).menus
      "collections-menu-3").map Menu.loaded = some true :=
  ⟨by decide,
   (toggle_success_render [⟨"collections-menu-3", "none", "", false⟩] "collections-menu-3"
      ⟨"collections-menu-3", "none", "", false⟩
      (some [⟨"1", "Favorites", true⟩, ⟨"2", "Later", false⟩]) none
      (by decide) (by decide) rfl).1⟩

theorem handleClick_ok_eval (s : PageState) (ev : ClickCtx)
    (colls : Option (List Collection)) (msg : Option String)
    (hact : ev.matchesAdd = true ∨ ev.matchesRemove = true) :
    handleClick s ev (.body "ok" colls msg) =
      (applySuccessPatch s ev (if ev.matchesRemove then "remove" else "add"),
       { preventedDefault := true,
         request := some { url := "/collection/" ++ ev.collectionId ++ "/" ++
                             (if ev.matchesRemove then "remove" else "add") ++ "_article",
                           contentType := "application/json",
                           xRequestedWith := "XMLHttpRequest",
                           body := postBodyJson ev.articleId },
         alertMsg := none, logged := false }) := by
  cases hr : ev.matchesRemove with
  | true => simp [handleClick, hr]
  | false =>
      have ha : ev.matchesAdd = true := by
        rcases hact with h | h
        · exact h
        · rw [h] at hr
          exact absurd hr (by simp)
      simp [handleClick, hr, ha]

theorem handleClick_fail_eval (s : PageState) (ev : ClickCtx) (out : FetchOutcome)
    (hact : ev.matchesAdd = true ∨ ev.matchesRemove = true)
    (hfail : out = .httpError ∨ out = .thrown ∨
             ∃ st colls msg, out = .body st colls msg ∧ st ≠ "ok") :
    handleClick s ev out =
      (s, { preventedDefault := true,
            request := some { url := "/collection/" ++ ev.collectionId ++ "/" ++
                                (if ev.matchesRemove then "remove" else "add") ++ "_article",
                              contentType := "application/json",
                              xRequestedWith := "XMLHttpRequest",
                              body := postBodyJson ev.articleId },
            alertMsg := some ("Failed to " ++
              (if ev.matchesRemove then "remove" else "add") ++ " article."),
            logged := true }) := by
  have ha : ev.matchesRemove = false → ev.matchesAdd = true := by
    intro hr
    rcases hact with h | h
    · exact h
    · rw [h] at hr
      exact absurd hr (by simp)
  rcases hfail with h | h | ⟨st, colls, msg, h, hne⟩ <;> subst h
  · cases hr : ev.matchesRemove
    · simp [handleClick, hr, ha hr]
    · simp [handleClick, hr]
  · cases hr : ev.matchesRemove
    · simp [handleClick, hr, ha hr]
    · simp [handleClick, hr]
  · cases hr : ev.matchesRemove
    · simp [handleClick, hr, ha hr, hne]
    · simp [handleClick, hr, hne]

theorem handleClick_none_eval (s : PageState) (ev : ClickCtx) (out : FetchOutcome)
    (ha : ev.matchesAdd = false) (hr : ev.matchesRemove = false) :
    handleClick s ev out =
      (if ev.insideMenu then s
       else { s with menus := s.menus.map (fun m => { m with display := "none" }) },
       noEffect) := by
  cases him : ev.insideMenu with
  | true => simp [handleClick, ha, hr, him]
  | false => simp [handleClick, ha, hr, him]

theorem applySuccessPatch_container_eval (s : PageState) (ev : ClickCtx) (act : String)
    (i : Nat) (c : ActionButtonContainer)
    (hanc : ev.ancestry = .container i) (hc : s.containers[i]? = some c) :
    applySuccessPatch s ev act =
      { s with
        containers := s.containers.set i
                        ({ c with html :=
                            if act = "add" then
                              removeButtonHtml ev.collectionId ev.articleId (c.entryName.getD "")
                            else
                              addButtonHtml ev.collectionId ev.articleId (c.entryName.getD "") }) } := by
  simp [applySuccessPatch, hanc, hc]

/-- C4: a click on a recognized add/remove button prevents default,
POSTs to `/collection/{collectionId}/{action}_article` with JSON body
`{article_id: articleId}` and the `X-Requested-With: XMLHttpRequest`
header; on HTTP ok with body `status === 'ok'` it replaces only the
clicked button's container content with the opposite-variant button —
carrying the same `data-collection-id` and `data-article-id` and
reusing the row's first-span name for the new title — leaving every
other container, the menus and the date filter unchanged. -/
theorem action_success_patch (s : PageState) (ev : ClickCtx) (i : Nat)
    (c : ActionButtonContainer) (colls : Option (List Collection)) (msg : Option String)
    (hact : ev.matchesAdd = true ∨ ev.matchesRemove = true)
    (hanc : ev.ancestry = .container i) (hc : s.containers[i]? = some c) :
    (handleClick s ev (.body "ok" colls msg)).2.preventedDefault = true ∧
    (handleClick s ev (.body "ok" colls msg)).2.request =
      some { url := "/collection/" ++ ev.collectionId ++ "/" ++
               (if ev.matchesRemove then "remove" else "add") ++ "_article",
             contentType := "application/json",
             xRequestedWith := "XMLHttpRequest",
             body := postBodyJson ev.articleId } ∧
    (handleClick s ev (.body "ok" colls msg)).2.alertMsg = none ∧
    (handleClick s ev (.body "ok" colls msg)).2.logged = false ∧
    (handleClick s ev (.body "ok" colls msg)).1.menus = s.menus ∧
    (handleClick s ev (.body "ok" colls msg)).1.dateFilter = s.dateFilter ∧
    (handleClick s ev (.body "ok" colls msg)).1.containers.length =
      s.containers.length ∧
    (∀ j, ¬ j = i →
      (handleClick s ev (.body "ok" colls msg)).1.containers[j]? = s.containers[j]?) ∧
    (handleClick s ev (.body "ok" colls msg)).1.containers[i]? =
      some ({ c with html :=
        if ev.matchesRemove then
          addButtonHtml ev.collectionId ev.articleId (c.entryName.getD "")
        else
          removeButtonHtml ev.collectionId ev.articleId (c.entryName.getD "") }) ∧
    (∀ nm, c.entryName = some nm →
      htmlContains
        (if ev.matchesRemove then addButtonHtml ev.collectionId ev.articleId nm
         else removeButtonHtml ev.collectionId ev.articleId nm)
        ("data-collection-id=\"" ++ ev.collectionId ++ "\"") ∧
      htmlContains
        (if ev.matchesRemove then addButtonHtml ev.collectionId ev.articleId nm
         else removeButtonHtml ev.collectionId ev.articleId nm)
        ("data-article-id=\"" ++ ev.articleId ++ "\"") ∧
      htmlContains
        (if ev.matchesRemove then addButtonHtml ev.collectionId ev.articleId nm
         else removeButtonHtml ev.collectionId ev.articleId nm)
        ((if ev.matchesRemove then "title=\"Add to " else "title=\"Remove from ") ++
          nm ++ "\"")) := by
  have hlen : i < s.containers.length := by
    rcases List.getElem?_eq_some.mp hc with ⟨hl, -⟩
    exact hl
  rw [handleClick_ok_eval s ev colls msg hact,
      applySuccessPatch_container_eval s ev _ i c hanc hc]
  cases hr : ev.matchesRemove with
  | true =>
      simp only [hr, if_true, ite_true]
      refine ⟨by trivial, ?_, by trivial, by trivial, by trivial, by trivial, ?_, ?_, ?_, ?_⟩
      · simp
      · exact List.length_set s.containers i _
      · intro j hj
        exact List.getElem?_set_ne (Ne.symm hj)
      · simp [List.getElem?_set_self, hlen]
      · intro nm hnm
        exact ⟨addButton_collection_id _ _ _, addButton_article_id _ _ _,
          addButton_title _ _ _⟩
  | false =>
      simp only [hr, if_false, ite_false]
      refine ⟨by trivial, ?_, by trivial, by trivial, by trivial, by trivial, ?_, ?_, ?_, ?_⟩
      · simp
      · exact List.length_set s.containers i _
      · intro j hj
        exact List.getElem?_set_ne (Ne.symm hj)
      · simp [List.getElem?_set_self, hlen]
      · intro nm hnm
        exact ⟨removeButton_collection_id _ _ _, removeButton_article_id _ _ _,
          removeButton_title _ _ _⟩

/-- Witness for C4: an add click on the first of two containers. -/
theorem action_success_patch_witness :
    ((true : Bool) = true ∨ (false : Bool) = true) ∧
    (ClickCtx.mk true false "4" "11" (.container 0) true).ancestry = .container 0 ∧
    ([⟨some "Favorites", "old"⟩, ⟨some "Later", "y"⟩] :
      List ActionButtonContainer)[0]? = some ⟨some "Favorites", "old"⟩ ∧
    (handleClick ⟨[], [⟨some "Favorites", "old"⟩, ⟨some "Later", "y"⟩], ⟨"", "+"⟩⟩
        (ClickCtx.mk true false "4" "11" (.container 0) true)
        (.body "ok" none none)).1.containers[0]? =
      some ⟨some "Favorites", removeButtonHtml "4" "11" "Favorites"⟩ :=
  ⟨Or.inl rfl, rfl, rfl,
   ((action_success_patch ⟨[], [⟨some "Favorites", "old"⟩, ⟨some "Later", "y"⟩], ⟨"", "+"⟩⟩
      (ClickCtx.mk true false "4" "11" (.container 0) true) 0 ⟨some "Favorites", "old"⟩
      none none (Or.inl rfl) rfl rfl).2.2.2.2.2.2.2.2.1)⟩

/-- C6: if an add/remove action fails (non-ok HTTP status, thrown
error, or body `status !== 'ok'`), the handler logs the error and
shows exactly one alert reading `Failed to {action} article.`, and the
whole page state is exactly as before the click — no DOM mutation
happens before the success confirmation. -/
theorem action_failure_alert (s : PageState) (ev : ClickCtx) (out : FetchOutcome)
    (hact : ev.matchesAdd = true ∨ ev.matchesRemove = true)
    (hfail : out = .httpError ∨ out = .thrown ∨
             ∃ st colls msg, out = .body st colls msg ∧ st ≠ "ok") :
    (handleClick s ev out).1 = s ∧
    (handleClick s ev out).2.alertMsg =
      some ("Failed to " ++ (if ev.matchesRemove then "remove" else "add") ++
        " article.") ∧
    (handleClick s ev out).2.logged = true := by
  rw [handleClick_fail_eval s ev out hact hfail]
  exact ⟨rfl, rfl, rfl⟩

/-- Witness for C6: a remove click failing with an HTTP error. -/
theorem action_failure_alert_witness :
    ((false : Bool) = true ∨ (true : Bool) = true) ∧
    (handleClick ⟨[], [⟨some "Favorites", "x"⟩], ⟨"", "+"⟩⟩
       (ClickCtx.mk false true "4" "11" (.container 0) true) .httpError).1 =
      ⟨[], [⟨some "Favorites", "x"⟩], ⟨"", "+"⟩⟩ ∧
    (handleClick ⟨[], [⟨some "Favorites", "x"⟩], ⟨"", "+"⟩⟩
       (ClickCtx.mk false true "4" "11" (.container 0) true) .httpError).2.alertMsg =
      some "Failed to remove article." :=
  ⟨Or.inr rfl,
   (action_failure_alert ⟨[], [⟨some "Favorites", "x"⟩], ⟨"", "+"⟩⟩
      (ClickCtx.mk false true "4" "11" (.container 0) true) .httpError
      (Or.inr rfl) (Or.inl rfl)).1,
   (action_failure_alert ⟨[], [⟨some "Favorites", "x"⟩], ⟨"", "+"⟩⟩
      (ClickCtx.mk false true "4" "11" (.container 0) true) .httpError
      (Or.inr rfl) (Or.inl rfl)).2.1⟩

/-- C7: for a click whose target is neither an add nor a remove button,
a click outside every `.collections-menu` sets the display of every
menu to `'none'` (and touches nothing else); a click inside a menu
changes nothing at all. -/
theorem outside_click_closes_menus (s : PageState) (ev : ClickCtx) (out : FetchOutcome)
    (ha : ev.matchesAdd = false) (hr : ev.matchesRemove = false) :
    (ev.insideMenu = false →
      (handleClick s ev out).1.menus =
        s.menus.map (fun m => { m with display := "none" }) ∧
      (∀ m ∈ (handleClick s ev out).1.menus, m.display = "none") ∧
      (handleClick s ev out).1.containers = s.containers ∧
      (handleClick s ev out).1.dateFilter = s.dateFilter ∧
      (handleClick s ev out).2 = noEffect) ∧
    (ev.insideMenu = true → handleClick s ev out = (s, noEffect)) := by
  rw [handleClick_none_eval s ev out ha hr]
  constructor
  · intro him
    rw [him]
    refine ⟨rfl, ?_, rfl, rfl, rfl⟩
    intro m hm
    have hm' : m ∈ s.menus.map (fun m => { m with display := "none" }) := hm
    obtain ⟨m0, -, hm0⟩ := List.mem_map.mp hm'
    rw [← hm0]
  · intro him
    rw [him]
    rfl

/-- Witness for C7: an outside click on a page with one open menu. -/
theorem outside_click_closes_menus_witness :
    (false : Bool) = false ∧
    (handleClick ⟨[⟨"collections-menu-2", "block", "x", true⟩], [], ⟨"", "+"⟩⟩
       (ClickCtx.mk false false "" "" .noContainer false) .thrown).1.menus =
      [⟨"collections-menu-2", "none", "x", true⟩] :=
  ⟨rfl,
   by
    have h := (outside_click_closes_menus
      ⟨[⟨"collections-menu-2", "block", "x", true⟩], [], ⟨"", "+"⟩⟩
      (ClickCtx.mk false false "" "" .noContainer false) .thrown rfl rfl).1 rfl
    rw [h.1]
    rfl⟩

/-- C10: if an add/remove POST succeeds but the clicked button has no
`.collection-action-button` ancestor, the handler changes nothing,
raises no alert and logs nothing — the success is silently a no-op
patch — although the POST itself was issued. -/
theorem action_success_no_container (s : PageState) (ev : ClickCtx)
    (colls : Option (List Collection)) (msg : Option String)
    (hact : ev.matchesAdd = true ∨ ev.matchesRemove = true)
    (hanc : ev.ancestry = .noContainer) :
    (handleClick s ev (.body "ok" colls msg)).1 = s ∧
    (handleClick s ev (.body "ok" colls msg)).2.alertMsg = none ∧
    (handleClick s ev (.body "ok" colls msg)).2.logged = false ∧
    (handleClick s ev (.body "ok" colls msg)).2.request =
      some { url := "/collection/" ++ ev.collectionId ++ "/" ++
               (if ev.matchesRemove then "remove" else "add") ++ "_article",
             contentType := "application/json",
             xRequestedWith := "XMLHttpRequest",
             body := postBodyJson ev.articleId } := by
  rw [handleClick_ok_eval s ev colls msg hact]
  refine ⟨?_, rfl, rfl, rfl⟩
  simp [applySuccessPatch, hanc]

/-- Witness for C10: an add click whose target sits outside any
container. -/
theorem action_success_no_container_witness :
    ((true : Bool) = true ∨ (false : Bool) = true) ∧
    (ClickCtx.mk true false "4" "11" .noContainer true).ancestry = .noContainer ∧
    (handleClick ⟨[], [⟨some "Favorites", "x"⟩], ⟨"", "+"⟩⟩
       (ClickCtx.mk true false "4" "11" .noContainer true)
       (.body "ok" none none)).1 = ⟨[], [⟨some "Favorites", "x"⟩], ⟨"", "+"⟩⟩ :=
  ⟨Or.inl rfl, rfl,
   (action_success_no_container ⟨[], [⟨some "Favorites", "x"⟩], ⟨"", "+"⟩⟩
      (ClickCtx.mk true false "4" "11" .noContainer true) none none
      (Or.inl rfl) rfl).1⟩

/-- C9 counterexample: with only `#start_date` present (holding a
non-empty value) and `#end_date` absent, the guard
`if (startDateEl && endDateEl)` on line 75 is falsy, so
`toggleDateFilters` never runs: the region stays collapsed instead of
auto-expanding as the claim asserts. -/
theorem init_date_filters_single_input_cex :
    initDateFilters (some "2024-01-01") none ⟨"", "+"⟩ = ⟨"", "+"⟩ ∧
    ¬ (initDateFilters (some "2024-01-01") none ⟨"", "+"⟩).contentDisplay = "block" :=
  ⟨rfl, by decide⟩

/-- C9 (amended): on initial page load the auto-expand runs only when
BOTH `#start_date` and `#end_date` are present; then, if either value
is non-empty and the region starts hidden, `toggleDateFilters` sets
its display to `'block'` and the icon to `'-'`.  When either element
is absent, `initDateFilters` is a no-op. -/
theorem init_date_filters_expand (sv evv : String) (s : DateFilterState)
    (hhidden : s.contentDisplay = "none" ∨ s.contentDisplay = "")
    (hval : ¬ sv = "" ∨ ¬ evv = "") :
    (initDateFilters (some sv) (some evv) s).contentDisplay = "block" ∧
    (initDateFilters (some sv) (some evv) s).iconText = "-" ∧
    (∀ v, initDateFilters (some v) none s = s) ∧
    (∀ v, initDateFilters none (some v) s = s) ∧
    initDateFilters none none s = s := by
  have h1 : initDateFilters (some sv) (some evv) s = toggleDateFilters s := by
    simp only [initDateFilters]
    rw [if_pos hval]
  have h2 : toggleDateFilters s = ⟨"block", "-"⟩ := by
    simp only [toggleDateFilters]
    rw [if_pos hhidden]
  refine ⟨?_, ?_, fun v => rfl, fun v => rfl, rfl⟩
  · rw [h1, h2]
  · rw [h1, h2]

/-- Witness for the amended C9: both inputs present, start date
non-empty, region initially collapsed. -/
theorem init_date_filters_expand_witness :
    ((("" : String) = "none") ∨ (("" : String) = "")) ∧
    (¬ ("2024-01-01" : String) = "" ∨ ¬ ("" : String) = "") ∧
    (initDateFilters (some "2024-01-01") (some "") ⟨"", "+"⟩).contentDisplay = "block" :=
  ⟨Or.inr rfl, Or.inl (by decide),
   (init_date_filters_expand "2024-01-01" "" ⟨"", "+"⟩ (Or.inr rfl)
      (Or.inl (by decide))).1⟩
